import Mathlib

/-!
Verification of the SISOSIG-Sign e-paper slideshow controller
(`slideshow.py`) against its natural-language specification.

The script is a single polling loop over global mutable state.  We embed it
shallowly: the global variables become a state record `CState`, the
per-iteration external world (Wi-Fi probe outcome, wall clock, monotonic
clock, and the result of preparing each remote image) becomes explicit
parameters, and each commented block of the loop body becomes a Lean
function.  Image decoding and compositing are deterministic external
transforms, so `prepare_slide` is abstracted as an oracle
`Url → Option Slide`: `some s` when the download-and-compose pipeline
produced a canvas, `none` when `download_image` exhausted its retries and
`prepare_slide` returned `None`.  Python's `NameError`/`IndexError` crashes
are modelled by the loop body returning `Option CState` (`none` = crash).
-/

namespace Slideshow

abbrev Url := String

/-- Abstract renderable canvas produced by `prepare_slide`. -/
abbrev Slide := Nat

/-- The configured remote resources (`IMAGE_URLS` in the script). -/
def IMAGE_URLS : List Url :=
  ["https://sisosig.info/temp/massdot.jpg",
   "https://sisosig.info/temp/massdot_graph.jpg"]

/-- `SLIDE_SECONDS = 30`. -/
def SLIDE_SECONDS : Nat := 30

/-- `OFFLINE_THRESHOLD = 3`. -/
def OFFLINE_THRESHOLD : Nat := 3

/-- `ONLINE_THRESHOLD = 1`. -/
def ONLINE_THRESHOLD : Nat := 1

/-- Outcome of running the `ip addr show` probe inside `wifi_connected`:
either the captured stdout, or an exception raised by the tooling. -/
inductive ProbeResult where
  | ok (output : String)
  | err (msg : String)
deriving DecidableEq, Repr

/-- Python's list/string containment helper: does `s` start with `pat`? -/
def leadsWith : List Char → List Char → Bool
  | _, [] => true
  | [], _ :: _ => false
  | c :: cs, p :: ps => c == p && leadsWith cs ps

/-- Python's substring test (`pat in s`) on character lists. -/
def hasSub : List Char → List Char → Bool
  | [], pat => leadsWith [] pat
  | s@(_ :: rest), pat => leadsWith s pat || hasSub rest pat

/-- Python's `pat in s` on strings. -/
def strContains (s pat : String) : Bool :=
  hasSub s.toList pat.toList

/-- `wifi_connected`: returns whether the probe output shows the interface
up with an address; any exception from the probe yields `False`. -/
def wifi_connected : ProbeResult → Bool
  | ProbeResult.ok output => strContains output "state UP" && strContains output "inet "
  | ProbeResult.err _ => false

/-- The `for url in IMAGE_URLS` loop body of `fetch_slides`: append the
prepared slide when `prepare_slide` succeeded, skip it otherwise. -/
def fetchLoop (prepare : Url → Option Slide) : List Url → List Slide → List Slide
  | [], slides => slides
  | url :: rest, slides =>
    match prepare url with
    | some slide => fetchLoop prepare rest (slides ++ [slide])
    | none => fetchLoop prepare rest slides

/-- `fetch_slides`: collect the successfully prepared slides, in order. -/
def fetch_slides (prepare : Url → Option Slide) : List Slide :=
  fetchLoop prepare IMAGE_URLS []

/-- What the e-paper panel is showing. -/
inductive Canvas where
  | offlineSlide
  | content (s : Slide)
deriving DecidableEq, Repr

/-- The script's global mutable state, plus instrumentation: `fetchCount`
counts calls to `fetch_slides`, `redrawCount` counts `display.show()`
calls after startup, `screen` is the panel content.  `slides = none`
models the Python name `slides` being still unassigned. -/
structure CState where
  offline_failures : Nat
  online_successes : Nat
  offline_mode : Bool
  slides : Option (List Slide)
  slide_index : Nat
  next_slide_time : Nat
  screen : Canvas
  fetchCount : Nat
  redrawCount : Nat
  last_image_refresh_minute : Option Nat
  last_slide_refresh_minute : Option Nat
deriving DecidableEq, Repr

/-- State right after module initialisation (lines 132-136 and 166-173):
offline mode, no `slides` binding, the QR fallback on screen. -/
def initState (t0 : Nat) : CState :=
  { offline_failures := 0
    online_successes := 0
    offline_mode := true
    slides := none
    slide_index := 0
    next_slide_time := t0
    screen := Canvas.offlineSlide
    fetchCount := 0
    redrawCount := 0
    last_image_refresh_minute := none
    last_slide_refresh_minute := none }

/-- The counter updates at the top of `check_connectivity`. -/
def sampleStep (probe : ProbeResult) (s : CState) : CState :=
  if wifi_connected probe then
    { s with online_successes := s.online_successes + 1, offline_failures := 0 }
  else
    { s with offline_failures := s.offline_failures + 1, online_successes := 0 }

/-- The `# Offline transition` block of `check_connectivity`. -/
def offlineTransition (s : CState) : CState :=
  if OFFLINE_THRESHOLD ≤ s.offline_failures ∧ s.offline_mode = false then
    { s with screen := Canvas.offlineSlide
             redrawCount := s.redrawCount + 1
             offline_mode := true }
  else s

/-- The `# Online transition` block of `check_connectivity`: fetch, reset
the cursor and its deadline to now, and leave offline mode. -/
def onlineTransition (prepare : Url → Option Slide) (now : Nat) (s : CState) : CState :=
  if ONLINE_THRESHOLD ≤ s.online_successes ∧ s.offline_mode = true then
    { s with slides := some (fetch_slides prepare)
             slide_index := 0
             next_slide_time := now
             offline_mode := false
             fetchCount := s.fetchCount + 1 }
  else s

/-- `check_connectivity`: sample, run both transitions, return the new
state and `not offline_mode`. -/
def check_connectivity (prepare : Url → Option Slide) (probe : ProbeResult)
    (now : Nat) (s : CState) : CState × Bool :=
  let s3 := onlineTransition prepare now (offlineTransition (sampleStep probe s))
  (s3, !s3.offline_mode)

/-- Wall-clock reading used by the loop (`datetime.datetime.now()`). -/
structure Wall where
  minute : Nat
  second : Nat
deriving DecidableEq, Repr

/-- The `# ---- Image refresh at :12 ----` block. -/
def imageRefresh (prepare : Url → Option Slide) (wall : Wall) (s : CState) : CState :=
  if wall.minute % 5 = 0 ∧ 10 ≤ wall.second ∧ wall.second ≤ 14 ∧
      s.last_image_refresh_minute ≠ some wall.minute then
    let slides := fetch_slides prepare
    { s with slides := some slides
             slide_index := s.slide_index % max slides.length 1
             fetchCount := s.fetchCount + 1
             last_image_refresh_minute := some wall.minute }
  else s

/-- The `# ---- Slide refresh at :30 ----` block. -/
def slideRefresh (prepare : Url → Option Slide) (wall : Wall) (s : CState) : CState :=
  if wall.minute % 5 = 0 ∧ 28 ≤ wall.second ∧ wall.second ≤ 32 ∧
      s.last_slide_refresh_minute ≠ some wall.minute then
    let slides := fetch_slides prepare
    { s with slides := some slides
             slide_index := 0
             fetchCount := s.fetchCount + 1
             last_slide_refresh_minute := some wall.minute }
  else s

/-- The `# ---- Slide timing ----` block.  Reading the unassigned name
`slides` or indexing out of range crashes the script (`none`). -/
def slideTiming (now_mono : Nat) (s : CState) : Option CState :=
  match s.slides with
  | none => none
  | some slides =>
    if slides ≠ [] ∧ s.next_slide_time ≤ now_mono then
      match slides.get? s.slide_index with
      | none => none
      | some sl =>
        some { s with screen := Canvas.content sl
                      redrawCount := s.redrawCount + 1
                      slide_index := (s.slide_index + 1) % slides.length
                      next_slide_time := s.next_slide_time + SLIDE_SECONDS }
    else some s

/-- One iteration of the `while True` main loop. -/
def loopIter (prepare : Url → Option Slide) (probe : ProbeResult)
    (now_mono : Nat) (wall : Wall) (s : CState) : Option CState :=
  let r := check_connectivity prepare probe now_mono s
  if r.2 = false then some r.1
  else slideTiming now_mono (slideRefresh prepare wall (imageRefresh prepare wall r.1))

/-- The rotation cursor after `m` executions of the advance statement
`slide_index = (slide_index + 1) % len(slides)` over a set of `n` slides. -/
def rotTicks (n i : Nat) : Nat → Nat
  | 0 => i
  | m + 1 => rotTicks n ((i + 1) % n) m

/-- Safety invariant of the loop state: whenever the script is online the
name `slides` is bound, and the rotation cursor is in range for the
current slide list (trivially `0` when the list is absent or empty). -/
def Inv (s : CState) : Prop :=
  (s.offline_mode = false → s.slides.isSome = true) ∧
  s.slide_index < max (s.slides.getD []).length 1

/-- A probe output for a connected interface (`ip addr` shows the link up
with an address assigned). -/
def probeUp : ProbeResult := ProbeResult.ok "state UP inet "

/-- A prepare-oracle assigning one outcome per configured URL: `a` to the
first resource, `b` to the second. -/
def prep2 (a b : Option Slide) : Url → Option Slide :=
  fun u => if u == "https://sisosig.info/temp/massdot.jpg" then a else b

/-- A typical in-service state: online, a committed slide list, the given
rotation cursor and next-advance deadline, no bucket markers yet. -/
def servingState (slides : List Slide) (idx deadline : Nat) : CState :=
  { offline_failures := 0
    online_successes := 1
    offline_mode := false
    slides := some slides
    slide_index := idx
    next_slide_time := deadline
    screen := Canvas.offlineSlide
    fetchCount := 1
    redrawCount := 1
    last_image_refresh_minute := none
    last_slide_refresh_minute := none }

/-! ## General lemmas about the embedded operations -/

/-- The `fetch_slides` accumulator loop keeps exactly the successful
preparations, in resource order. -/
lemma fetchLoop_eq (prepare : Url → Option Slide) :
    ∀ (urls : List Url) (acc : List Slide),
      fetchLoop prepare urls acc = acc ++ urls.filterMap prepare := by
  intro urls
  induction urls with
  | nil => intro acc; simp [fetchLoop]
  | cons url rest ih =>
    intro acc
    unfold fetchLoop
    cases h : prepare url with
    | some slide => simp [h, ih, List.filterMap_cons]
    | none => simp [h, ih, List.filterMap_cons]

/-- `fetch_slides` is the filter-map of the prepare oracle over the
configured resource list. -/
lemma fetch_slides_eq (prepare : Url → Option Slide) :
    fetch_slides prepare = IMAGE_URLS.filterMap prepare := by
  simp [fetch_slides, fetchLoop_eq]

/-- A connected sample taken while already online only bumps the success
counter and clears the failure counter; no transition fires. -/
lemma check_conn_online_stay (prepare : Url → Option Slide) (probe : ProbeResult)
    (now : Nat) (s : CState) (hmode : s.offline_mode = false)
    (hp : wifi_connected probe = true) :
    check_connectivity prepare probe now s =
      ({ s with online_successes := s.online_successes + 1, offline_failures := 0 }, true) := by
  unfold check_connectivity sampleStep offlineTransition onlineTransition
  simp [hp, hmode, OFFLINE_THRESHOLD]

/-- A connected sample taken while offline fires the online transition:
fetch, cursor and deadline reset, offline mode left. -/
lemma check_conn_from_offline (prepare : Url → Option Slide) (probe : ProbeResult)
    (now : Nat) (s : CState) (hmode : s.offline_mode = true)
    (hp : wifi_connected probe = true) :
    check_connectivity prepare probe now s =
      ({ s with online_successes := s.online_successes + 1
                offline_failures := 0
                slides := some (fetch_slides prepare)
                slide_index := 0
                next_slide_time := now
                offline_mode := false
                fetchCount := s.fetchCount + 1 }, true) := by
  unfold check_connectivity sampleStep offlineTransition onlineTransition
  simp [hp, hmode, OFFLINE_THRESHOLD, ONLINE_THRESHOLD]

/-- The :12 image-refresh block is a no-op when its gate is closed. -/
lemma imageRefresh_not (prepare : Url → Option Slide) (wall : Wall) (s : CState)
    (h : ¬ (wall.minute % 5 = 0 ∧ 10 ≤ wall.second ∧ wall.second ≤ 14 ∧
        s.last_image_refresh_minute ≠ some wall.minute)) :
    imageRefresh prepare wall s = s := by
  unfold imageRefresh
  simp [h]

/-- The :30 slide-refresh block is a no-op when its gate is closed. -/
lemma slideRefresh_not (prepare : Url → Option Slide) (wall : Wall) (s : CState)
    (h : ¬ (wall.minute % 5 = 0 ∧ 28 ≤ wall.second ∧ wall.second ≤ 32 ∧
        s.last_slide_refresh_minute ≠ some wall.minute)) :
    slideRefresh prepare wall s = s := by
  unfold slideRefresh
  simp [h]

/-- The slide-timing block does nothing before the deadline. -/
lemma slideTiming_notdue (now_mono : Nat) (s : CState) (l : List Slide)
    (hsl : s.slides = some l) (h : now_mono < s.next_slide_time) :
    slideTiming now_mono s = some s := by
  unfold slideTiming
  rw [hsl]
  have : ¬ (l ≠ [] ∧ s.next_slide_time ≤ now_mono) := by
    rintro ⟨-, hle⟩; omega
  simp [this]

/-- The slide-timing block, once the deadline has passed on a non-empty
in-range slide list: draw the current slide, advance the cursor modulo
the length, push the deadline by `SLIDE_SECONDS`. -/
lemma slideTiming_due (now_mono : Nat) (s : CState) (l : List Slide)
    (hsl : s.slides = some l) (hne : l ≠ [])
    (hdue : s.next_slide_time ≤ now_mono) (hidx : s.slide_index < l.length) :
    slideTiming now_mono s =
      some { s with screen := Canvas.content (l.get ⟨s.slide_index, hidx⟩)
                    redrawCount := s.redrawCount + 1
                    slide_index := (s.slide_index + 1) % l.length
                    next_slide_time := s.next_slide_time + SLIDE_SECONDS } := by
  unfold slideTiming
  simp only [hsl]
  rw [if_pos ⟨hne, hdue⟩]
  rw [List.get?_eq_get hidx]

/-- Iterating the advance statement `m + 1` times lands on
`(i + m + 1) % n`. -/
lemma rotTicks_succ_eq (n i m : Nat) : rotTicks n i (m + 1) = (i + m + 1) % n := by
  induction m generalizing i with
  | zero => simp [rotTicks]
  | succ m ih =>
    show rotTicks n ((i + 1) % n) (m + 1) = (i + (m + 1) + 1) % n
    rw [ih]
    rw [Nat.add_assoc ((i + 1) % n) m 1]
    rw [Nat.mod_add_mod]
    congr 1
    omega

lemma max_one_pos (n : Nat) : 0 < max n 1 :=
  Nat.lt_of_lt_of_le Nat.zero_lt_one (Nat.le_max_right n 1)

lemma inv_sampleStep (probe : ProbeResult) (s : CState) (h : Inv s) :
    Inv (sampleStep probe s) := by
  unfold sampleStep
  split <;> exact h

lemma inv_offlineTransition (s : CState) (h : Inv s) : Inv (offlineTransition s) := by
  unfold offlineTransition
  split
  · exact ⟨by simp, h.2⟩
  · exact h

lemma inv_onlineTransition (prepare : Url → Option Slide) (now : Nat) (s : CState)
    (h : Inv s) : Inv (onlineTransition prepare now s) := by
  unfold onlineTransition
  split
  · exact ⟨fun _ => rfl, max_one_pos _⟩
  · exact h

lemma inv_check (prepare : Url → Option Slide) (probe : ProbeResult) (now : Nat)
    (s : CState) (h : Inv s) : Inv (check_connectivity prepare probe now s).1 :=
  inv_onlineTransition _ _ _ (inv_offlineTransition _ (inv_sampleStep _ _ h))

lemma inv_imageRefresh (prepare : Url → Option Slide) (wall : Wall) (s : CState)
    (h : Inv s) : Inv (imageRefresh prepare wall s) := by
  unfold imageRefresh
  split
  · exact ⟨fun _ => rfl, Nat.mod_lt _ (max_one_pos _)⟩
  · exact h

lemma inv_slideRefresh (prepare : Url → Option Slide) (wall : Wall) (s : CState)
    (h : Inv s) : Inv (slideRefresh prepare wall s) := by
  unfold slideRefresh
  split
  · exact ⟨fun _ => rfl, max_one_pos _⟩
  · exact h

lemma imageRefresh_mode (prepare : Url → Option Slide) (wall : Wall) (s : CState) :
    (imageRefresh prepare wall s).offline_mode = s.offline_mode := by
  unfold imageRefresh
  split <;> rfl

lemma slideRefresh_mode (prepare : Url → Option Slide) (wall : Wall) (s : CState) :
    (slideRefresh prepare wall s).offline_mode = s.offline_mode := by
  unfold slideRefresh
  split <;> rfl

/-- The slide-timing block cannot crash while the invariant holds and the
slide list is bound, and it preserves the invariant. -/
lemma slideTiming_inv (now_mono : Nat) (s : CState)
    (hsome : s.slides.isSome = true) (h : Inv s) :
    ∃ s', slideTiming now_mono s = some s' ∧ Inv s' := by
  cases hsl : s.slides with
  | none => rw [hsl] at hsome; simp at hsome
  | some l =>
    by_cases hg : l ≠ [] ∧ s.next_slide_time ≤ now_mono
    · have hlen : 0 < l.length := List.length_pos.mpr hg.1
      have hidx : s.slide_index < l.length := by
        have := h.2
        rw [hsl] at this
        simpa [Nat.max_eq_left hlen] using this
      rw [slideTiming_due now_mono s l hsl hg.1 hg.2 hidx]
      refine ⟨_, rfl, fun _ => by simp [hsl], ?_⟩
      simpa [hsl, Nat.max_eq_left hlen] using Nat.mod_lt (s.slide_index + 1) hlen
    · have : slideTiming now_mono s = some s := by
        unfold slideTiming
        simp only [hsl]
        rw [if_neg hg]
      exact ⟨s, this, h⟩

/-! ## Claim C1: all-or-nothing batch fetch -/

/-- Claim C1, refuted at a concrete input: with the first resource
succeeding (slide `5`) and the second failing, `fetch_slides` returns the
one-element list `[5]` — neither a full-length set (the resource list has
two entries) nor a failure, i.e. a partially-populated set. -/
theorem c1_counterexample :
    fetch_slides (prep2 (some 5) none) ≠ [] ∧
    (fetch_slides (prep2 (some 5) none)).length ≠ IMAGE_URLS.length := by
  decide

/-- Claim C1 as amended: `fetch_slides` never fails; it returns the slides
of exactly the resources whose preparation succeeded, in order, so its
length can be anything up to the resource count (partial sets included). -/
theorem c1_amended (prepare : Url → Option Slide) :
    fetch_slides prepare = IMAGE_URLS.filterMap prepare ∧
    (fetch_slides prepare).length ≤ IMAGE_URLS.length := by
  refine ⟨fetch_slides_eq prepare, ?_⟩
  rw [fetch_slides_eq]
  exact List.length_filterMap_le _ _

/-! ## Claim C2: unchanged content must not commit / redraw / reset -/

/-- Claim C2, refuted at a concrete input: in a serving state with
committed slides `[10, 20]` and rotation index `1`, a fetch during the
:30 window returning the *identical* content `[10, 20]` still resets the
rotation index to `0` — the code never compares content. -/
theorem c2_counterexample :
    fetch_slides (prep2 (some 10) (some 20)) = [10, 20] ∧
    (servingState [10, 20] 1 1000).slides = some [10, 20] ∧
    (servingState [10, 20] 1 1000).slide_index = 1 ∧
    ((loopIter (prep2 (some 10) (some 20)) probeUp 50 ⟨5, 30⟩
        (servingState [10, 20] 1 1000)).map CState.slide_index) = some 0 ∧
    ((loopIter (prep2 (some 10) (some 20)) probeUp 50 ⟨5, 30⟩
        (servingState [10, 20] 1 1000)).map CState.slide_index) ≠ some 1 := by
  decide

/-- Claim C2 as amended: while serving, a fetch returning content equal to
the committed slides never redraws the display, never changes the
next-slide deadline, and recommits the same list; the rotation index is
unchanged except that the :30 refresh resets it to 0 regardless of
content (the code performs no fingerprint comparison). -/
theorem c2_amended (prepare : Url → Option Slide) (probe : ProbeResult)
    (now_mono : Nat) (wall : Wall) (s : CState) (l : List Slide)
    (hmode : s.offline_mode = false) (hsl : s.slides = some l)
    (hfetch : fetch_slides prepare = l) (hp : wifi_connected probe = true)
    (hnotdue : now_mono < s.next_slide_time)
    (hidx : s.slide_index < max l.length 1) :
    ∃ s', loopIter prepare probe now_mono wall s = some s' ∧
      s'.slides = some l ∧
      s'.next_slide_time = s.next_slide_time ∧
      s'.redrawCount = s.redrawCount ∧
      s'.screen = s.screen ∧
      (s'.slide_index = s.slide_index ∨ s'.slide_index = 0) := by
  unfold loopIter
  rw [check_conn_online_stay prepare probe now_mono s hmode hp]
  simp only [Bool.true_eq_false, if_false]
  set s1 : CState :=
    { s with online_successes := s.online_successes + 1, offline_failures := 0 } with hs1
  by_cases h12 : wall.minute % 5 = 0 ∧ 10 ≤ wall.second ∧ wall.second ≤ 14 ∧
      s1.last_image_refresh_minute ≠ some wall.minute
  · have h30 : ¬ (wall.minute % 5 = 0 ∧ 28 ≤ wall.second ∧ wall.second ≤ 32 ∧
        (imageRefresh prepare wall s1).last_slide_refresh_minute ≠ some wall.minute) := by
      rintro ⟨-, h28, -, -⟩
      omega
    rw [slideRefresh_not _ _ _ h30]
    have hir : imageRefresh prepare wall s1 =
        { s1 with slides := some l
                  slide_index := s1.slide_index % max l.length 1
                  fetchCount := s1.fetchCount + 1
                  last_image_refresh_minute := some wall.minute } := by
      unfold imageRefresh
      rw [if_pos h12, hfetch]
    rw [hir]
    rw [slideTiming_notdue now_mono _ l rfl (by simpa [hs1] using hnotdue)]
    refine ⟨_, rfl, rfl, rfl, rfl, rfl, Or.inl ?_⟩
    simpa [hs1] using Nat.mod_eq_of_lt hidx
  · rw [imageRefresh_not _ _ _ h12]
    by_cases h30 : wall.minute % 5 = 0 ∧ 28 ≤ wall.second ∧ wall.second ≤ 32 ∧
        s1.last_slide_refresh_minute ≠ some wall.minute
    · have hsr : slideRefresh prepare wall s1 =
          { s1 with slides := some l
                    slide_index := 0
                    fetchCount := s1.fetchCount + 1
                    last_slide_refresh_minute := some wall.minute } := by
        unfold slideRefresh
        rw [if_pos h30, hfetch]
      rw [hsr]
      rw [slideTiming_notdue now_mono _ l rfl (by simpa [hs1] using hnotdue)]
      exact ⟨_, rfl, rfl, rfl, rfl, rfl, Or.inr rfl⟩
    · rw [slideRefresh_not _ _ _ h30]
      rw [slideTiming_notdue now_mono _ l (by simpa [hs1] using hsl)
        (by simpa [hs1] using hnotdue)]
      exact ⟨_, rfl, by simpa [hs1] using hsl, rfl, rfl, rfl, Or.inl rfl⟩

/-- Claim C2 witness: the amended theorem instantiated at a concrete
serving state during an ordinary (non-bucket) tick. -/
theorem c2_witness :
    ((servingState [10, 20] 1 1000).offline_mode = false ∧
     (servingState [10, 20] 1 1000).slides = some [10, 20] ∧
     fetch_slides (prep2 (some 10) (some 20)) = [10, 20] ∧
     wifi_connected probeUp = true ∧
     50 < (servingState [10, 20] 1 1000).next_slide_time ∧
     (servingState [10, 20] 1 1000).slide_index < max ([10, 20] : List Slide).length 1) ∧
    ∃ s', loopIter (prep2 (some 10) (some 20)) probeUp 50 ⟨1, 0⟩
        (servingState [10, 20] 1 1000) = some s' ∧
      s'.slides = some [10, 20] ∧
      s'.next_slide_time = (servingState [10, 20] 1 1000).next_slide_time ∧
      s'.redrawCount = (servingState [10, 20] 1 1000).redrawCount ∧
      s'.screen = (servingState [10, 20] 1 1000).screen ∧
      (s'.slide_index = (servingState [10, 20] 1 1000).slide_index ∨ s'.slide_index = 0) :=
  ⟨⟨by decide, by decide, by decide, by decide, by decide, by decide⟩,
    c2_amended (prep2 (some 10) (some 20)) probeUp 50 ⟨1, 0⟩
      (servingState [10, 20] 1 1000) [10, 20]
      (by decide) (by decide) (by decide) (by decide) (by decide) (by decide)⟩

/-! ## Claim C3: behaviour on the OFFLINE-to-ONLINE edge -/

/-- Claim C3, refuted at a concrete input: from the initial (offline)
state, one connected sample with every resource failing still leaves
offline mode — the system goes online with the empty slide set instead of
remaining in the waiting state. -/
theorem c3_counterexample :
    fetch_slides (fun _ => none) = [] ∧
    (check_connectivity (fun _ => none) probeUp 7 (initState 0)).1.offline_mode = false ∧
    (check_connectivity (fun _ => none) probeUp 7 (initState 0)).1.slides = some [] := by
  decide

/-- Claim C3 as amended: the OFFLINE-to-ONLINE edge performs exactly one
immediate fetch and transitions online *unconditionally*, committing
whatever the fetch produced (possibly the empty list); the screen is not
redrawn by the transition itself, so a failed fetch leaves the fallback
slide visible but the mode is nonetheless online. -/
theorem c3_amended (prepare : Url → Option Slide) (probe : ProbeResult)
    (now : Nat) (s : CState)
    (hoff : s.offline_mode = true) (hp : wifi_connected probe = true) :
    ∃ s', check_connectivity prepare probe now s = (s', true) ∧
      s'.offline_mode = false ∧
      s'.slides = some (fetch_slides prepare) ∧
      s'.slide_index = 0 ∧
      s'.next_slide_time = now ∧
      s'.screen = s.screen ∧
      s'.fetchCount = s.fetchCount + 1 := by
  refine ⟨_, check_conn_from_offline prepare probe now s hoff hp, ?_⟩
  simp

/-- Claim C3 witness: the amended theorem at the initial state with a
connected probe and an all-failing fetch oracle. -/
theorem c3_witness :
    ((initState 0).offline_mode = true ∧ wifi_connected probeUp = true) ∧
    ∃ s', check_connectivity (fun _ => none) probeUp 7 (initState 0) = (s', true) ∧
      s'.offline_mode = false ∧
      s'.slides = some (fetch_slides (fun _ => none)) ∧
      s'.slide_index = 0 ∧
      s'.next_slide_time = 7 ∧
      s'.screen = (initState 0).screen ∧
      s'.fetchCount = (initState 0).fetchCount + 1 :=
  ⟨⟨by decide, by decide⟩,
    c3_amended (fun _ => none) probeUp 7 (initState 0) (by decide) (by decide)⟩

/-! ## Claim C4: retry semantics of the 5-minute bucket marker -/

/-- Claim C4, refuted at a concrete input: in the :12 window with every
resource failing (`fetch_slides` returns `[]`), the last-image-refresh
marker still advances from `none` to the current minute, so the failed
attempt is not retried within the bucket. -/
theorem c4_counterexample :
    fetch_slides (fun _ => none) = [] ∧
    (servingState [10, 20] 0 1000).last_image_refresh_minute = none ∧
    ((loopIter (fun _ => none) probeUp 0 ⟨10, 12⟩
        (servingState [10, 20] 0 1000)).map CState.last_image_refresh_minute) =
      some (some 10) := by
  decide

/-- Claim C4 as amended: whenever the :12 refresh gate opens while
serving, the bucket marker is advanced to the current minute
*unconditionally* — success or failure of the fetch is irrelevant (and
the fetched, possibly empty, list is committed); there is no
within-bucket retry and no retry cooldown in the code. -/
theorem c4_amended (prepare : Url → Option Slide) (probe : ProbeResult)
    (now_mono : Nat) (wall : Wall) (s : CState)
    (hmode : s.offline_mode = false)
    (hp : wifi_connected probe = true)
    (hmin : wall.minute % 5 = 0) (hs10 : 10 ≤ wall.second) (hs14 : wall.second ≤ 14)
    (hmark : s.last_image_refresh_minute ≠ some wall.minute) :
    ∃ s', loopIter prepare probe now_mono wall s = some s' ∧
      s'.last_image_refresh_minute = some wall.minute ∧
      s'.slides = some (fetch_slides prepare) := by
  unfold loopIter
  rw [check_conn_online_stay prepare probe now_mono s hmode hp]
  simp only [Bool.true_eq_false, if_false]
  set s1 : CState :=
    { s with online_successes := s.online_successes + 1, offline_failures := 0 } with hs1
  set f : List Slide := fetch_slides prepare with hf
  have h12 : wall.minute % 5 = 0 ∧ 10 ≤ wall.second ∧ wall.second ≤ 14 ∧
      s1.last_image_refresh_minute ≠ some wall.minute := ⟨hmin, hs10, hs14, hmark⟩
  have hir : imageRefresh prepare wall s1 =
      { s1 with slides := some f
                slide_index := s1.slide_index % max f.length 1
                fetchCount := s1.fetchCount + 1
                last_image_refresh_minute := some wall.minute } := by
    unfold imageRefresh
    rw [if_pos h12]
  rw [hir]
  have h30 : ¬ (wall.minute % 5 = 0 ∧ 28 ≤ wall.second ∧ wall.second ≤ 32 ∧
      ({ s1 with slides := some f
                 slide_index := s1.slide_index % max f.length 1
                 fetchCount := s1.fetchCount + 1
                 last_image_refresh_minute := some wall.minute } :
        CState).last_slide_refresh_minute ≠ some wall.minute) := by
    rintro ⟨-, h28, -, -⟩
    omega
  rw [slideRefresh_not _ _ _ h30]
  unfold slideTiming
  simp only
  split
  case isTrue hg =>
    have hflen : 0 < f.length := List.length_pos.mpr hg.1
    have hlt : s1.slide_index % max f.length 1 < f.length := by
      have : max f.length 1 = f.length := Nat.max_eq_left hflen
      rw [this] at *
      exact Nat.mod_lt _ hflen
    cases hget : f.get? (s1.slide_index % max f.length 1) with
    | none =>
      exfalso
      exact absurd (List.get?_eq_none.mp hget) (by omega)
    | some sl => exact ⟨_, rfl, rfl, rfl⟩
  case isFalse hg => exact ⟨_, rfl, rfl, rfl⟩

/-- Claim C4 witness: the amended theorem at a concrete serving state in
the :12 window with an all-failing fetch oracle. -/
theorem c4_witness :
    ((servingState [10, 20] 0 1000).offline_mode = false ∧
     wifi_connected probeUp = true ∧
     (10 : Nat) % 5 = 0 ∧ (10 : Nat) ≤ 12 ∧ (12 : Nat) ≤ 14 ∧
     (servingState [10, 20] 0 1000).last_image_refresh_minute ≠ some 10) ∧
    ∃ s', loopIter (fun _ => none) probeUp 0 ⟨10, 12⟩
        (servingState [10, 20] 0 1000) = some s' ∧
      s'.last_image_refresh_minute = some (10 : Nat) ∧
      s'.slides = some (fetch_slides (fun _ => none)) :=
  ⟨⟨by decide, by decide, by decide, by decide, by decide, by decide⟩,
    c4_amended (fun _ => none) probeUp 0 ⟨10, 12⟩ (servingState [10, 20] 0 1000)
      (by decide) (by decide) (by decide) (by decide) (by decide) (by decide)⟩

/-! ## Claim C5: commit of changed content -/

/-- Claim C5, refuted at a concrete input: a :30 refresh returning changed
content (`[10, 21]` replacing `[10, 20]`) commits the new set and resets
the index to 0, but the next-slide deadline stays at its old value 1000
instead of being reset to the current time 50 — the new content waits out
the old cadence. -/
theorem c5_counterexample :
    (servingState [10, 20] 1 1000).slides = some [10, 20] ∧
    fetch_slides (prep2 (some 10) (some 21)) = [10, 21] ∧
    ((loopIter (prep2 (some 10) (some 21)) probeUp 50 ⟨5, 30⟩
        (servingState [10, 20] 1 1000)).map CState.slides) = some (some [10, 21]) ∧
    ((loopIter (prep2 (some 10) (some 21)) probeUp 50 ⟨5, 30⟩
        (servingState [10, 20] 1 1000)).map CState.slide_index) = some 0 ∧
    ((loopIter (prep2 (some 10) (some 21)) probeUp 50 ⟨5, 30⟩
        (servingState [10, 20] 1 1000)).map CState.next_slide_time) = some 1000 ∧
    ((loopIter (prep2 (some 10) (some 21)) probeUp 50 ⟨5, 30⟩
        (servingState [10, 20] 1 1000)).map CState.next_slide_time) ≠ some 50 := by
  decide

/-- Claim C5 as amended: a serving-state :30 refresh always commits the
fetched set and resets the rotation index to 0 (changed or not — there is
no change detection), but the next-slide deadline is left unchanged, so
the new content is first shown when the previously scheduled deadline
arrives rather than immediately. -/
theorem c5_amended (prepare : Url → Option Slide) (probe : ProbeResult)
    (now_mono : Nat) (wall : Wall) (s : CState)
    (hmode : s.offline_mode = false)
    (hp : wifi_connected probe = true)
    (hnotdue : now_mono < s.next_slide_time)
    (hmin : wall.minute % 5 = 0) (hs28 : 28 ≤ wall.second) (hs32 : wall.second ≤ 32)
    (hmark : s.last_slide_refresh_minute ≠ some wall.minute) :
    ∃ s', loopIter prepare probe now_mono wall s = some s' ∧
      s'.slides = some (fetch_slides prepare) ∧
      s'.slide_index = 0 ∧
      s'.next_slide_time = s.next_slide_time ∧
      s'.last_slide_refresh_minute = some wall.minute := by
  unfold loopIter
  rw [check_conn_online_stay prepare probe now_mono s hmode hp]
  simp only [Bool.true_eq_false, if_false]
  set s1 : CState :=
    { s with online_successes := s.online_successes + 1, offline_failures := 0 } with hs1
  have h12 : ¬ (wall.minute % 5 = 0 ∧ 10 ≤ wall.second ∧ wall.second ≤ 14 ∧
      s1.last_image_refresh_minute ≠ some wall.minute) := by
    rintro ⟨-, -, h14, -⟩
    omega
  rw [imageRefresh_not _ _ _ h12]
  have h30 : wall.minute % 5 = 0 ∧ 28 ≤ wall.second ∧ wall.second ≤ 32 ∧
      s1.last_slide_refresh_minute ≠ some wall.minute := ⟨hmin, hs28, hs32, hmark⟩
  have hsr : slideRefresh prepare wall s1 =
      { s1 with slides := some (fetch_slides prepare)
                slide_index := 0
                fetchCount := s1.fetchCount + 1
                last_slide_refresh_minute := some wall.minute } := by
    unfold slideRefresh
    rw [if_pos h30]
  rw [hsr]
  rw [slideTiming_notdue now_mono _ (fetch_slides prepare) rfl (by simpa [hs1] using hnotdue)]
  exact ⟨_, rfl, rfl, rfl, rfl, rfl⟩

/-- Claim C5 witness: the amended theorem at a concrete serving state in
the :30 window with a changed-content oracle. -/
theorem c5_witness :
    ((servingState [10, 20] 1 1000).offline_mode = false ∧
     wifi_connected probeUp = true ∧
     50 < (servingState [10, 20] 1 1000).next_slide_time ∧
     (5 : Nat) % 5 = 0 ∧ (28 : Nat) ≤ 30 ∧ (30 : Nat) ≤ 32 ∧
     (servingState [10, 20] 1 1000).last_slide_refresh_minute ≠ some 5) ∧
    ∃ s', loopIter (prep2 (some 10) (some 21)) probeUp 50 ⟨5, 30⟩
        (servingState [10, 20] 1 1000) = some s' ∧
      s'.slides = some (fetch_slides (prep2 (some 10) (some 21))) ∧
      s'.slide_index = 0 ∧
      s'.next_slide_time = (servingState [10, 20] 1 1000).next_slide_time ∧
      s'.last_slide_refresh_minute = some (5 : Nat) :=
  ⟨⟨by decide, by decide, by decide, by decide, by decide, by decide, by decide⟩,
    c5_amended (prep2 (some 10) (some 21)) probeUp 50 ⟨5, 30⟩
      (servingState [10, 20] 1 1000)
      (by decide) (by decide) (by decide) (by decide) (by decide) (by decide) (by decide)⟩

/-! ## Claim C6: debounced transition to OFFLINE -/

/-- Claim C6, confirmed: starting online with a clear failure counter,
three consecutive failed samples flip the mode to offline exactly on the
third sample (still online after the first and the second), and any
connected sample resets the failure counter to 0 from any state. -/
theorem c6_offline_debounce (prepare : Url → Option Slide) (now : Nat) (s : CState)
    (p1 p2 p3 : ProbeResult)
    (h1 : wifi_connected p1 = false) (h2 : wifi_connected p2 = false)
    (h3 : wifi_connected p3 = false)
    (hmode : s.offline_mode = false) (hfail : s.offline_failures = 0) :
    ((check_connectivity prepare p1 now s).1.offline_mode = false ∧
     (check_connectivity prepare p2 now
        (check_connectivity prepare p1 now s).1).1.offline_mode = false ∧
     (check_connectivity prepare p3 now
        (check_connectivity prepare p2 now
          (check_connectivity prepare p1 now s).1).1).1.offline_mode = true) ∧
    ∀ (probe : ProbeResult) (t : CState), wifi_connected probe = true →
      (check_connectivity prepare probe now t).1.offline_failures = 0 := by
  constructor
  · unfold check_connectivity sampleStep offlineTransition onlineTransition
    simp [h1, h2, h3, hmode, hfail, OFFLINE_THRESHOLD, ONLINE_THRESHOLD]
  · intro probe t hp
    unfold check_connectivity sampleStep offlineTransition onlineTransition
    simp [hp, OFFLINE_THRESHOLD, ONLINE_THRESHOLD]
    split <;> simp

/-- Claim C6 witness: the debounce theorem at a concrete serving state
with three probe errors. -/
theorem c6_witness :
    (wifi_connected (ProbeResult.err "a") = false ∧
     (servingState [10, 20] 0 1000).offline_mode = false ∧
     (servingState [10, 20] 0 1000).offline_failures = 0) ∧
    (((check_connectivity (fun _ => none) (ProbeResult.err "a") 0
        (servingState [10, 20] 0 1000)).1.offline_mode = false ∧
      (check_connectivity (fun _ => none) (ProbeResult.err "a") 0
        (check_connectivity (fun _ => none) (ProbeResult.err "a") 0
          (servingState [10, 20] 0 1000)).1).1.offline_mode = false ∧
      (check_connectivity (fun _ => none) (ProbeResult.err "a") 0
        (check_connectivity (fun _ => none) (ProbeResult.err "a") 0
          (check_connectivity (fun _ => none) (ProbeResult.err "a") 0
            (servingState [10, 20] 0 1000)).1).1).1.offline_mode = true) ∧
     ∀ (probe : ProbeResult) (t : CState), wifi_connected probe = true →
       (check_connectivity (fun _ => none) probe 0 t).1.offline_failures = 0) :=
  ⟨⟨by decide, by decide, by decide⟩,
    c6_offline_debounce (fun _ => none) 0 (servingState [10, 20] 0 1000)
      (ProbeResult.err "a") (ProbeResult.err "a") (ProbeResult.err "a")
      (by decide) (by decide) (by decide) (by decide) (by decide)⟩

/-! ## Claim C7: single-sample recovery to ONLINE -/

/-- Claim C7, confirmed: with the online threshold at 1, one connected
sample taken while offline flips the mode to online on that very call and
performs exactly one fetch (`fetchCount` rises by one), and the call
reports online to the loop. -/
theorem c7_online_edge (prepare : Url → Option Slide) (probe : ProbeResult)
    (now : Nat) (s : CState)
    (hoff : s.offline_mode = true) (hp : wifi_connected probe = true) :
    (check_connectivity prepare probe now s).1.offline_mode = false ∧
    (check_connectivity prepare probe now s).1.fetchCount = s.fetchCount + 1 ∧
    (check_connectivity prepare probe now s).2 = true := by
  rw [check_conn_from_offline prepare probe now s hoff hp]
  simp

/-- Claim C7 witness: the recovery theorem at the initial offline state
with a connected probe. -/
theorem c7_witness :
    ((initState 0).offline_mode = true ∧ wifi_connected probeUp = true) ∧
    ((check_connectivity (prep2 (some 10) (some 20)) probeUp 4
        (initState 0)).1.offline_mode = false ∧
     (check_connectivity (prep2 (some 10) (some 20)) probeUp 4
        (initState 0)).1.fetchCount = (initState 0).fetchCount + 1 ∧
     (check_connectivity (prep2 (some 10) (some 20)) probeUp 4 (initState 0)).2 = true) :=
  ⟨⟨by decide, by decide⟩,
    c7_online_edge (prep2 (some 10) (some 20)) probeUp 4 (initState 0)
      (by decide) (by decide)⟩

/-! ## Claim C8: modular rotation of the slide cursor -/

/-- Claim C8, confirmed: on a display tick over a non-empty committed
list, the shown slide is the one at the current cursor, the cursor
advances to `(i + 1) % len` and stays below `len`; moreover iterating the
advance statement returns the cursor to index 0 infinitely often. -/
theorem c8_rotation (prepare : Url → Option Slide) (probe : ProbeResult)
    (now_mono : Nat) (wall : Wall) (s : CState) (l : List Slide)
    (hmode : s.offline_mode = false) (hsl : s.slides = some l) (hne : l ≠ [])
    (hdue : s.next_slide_time ≤ now_mono) (hidx : s.slide_index < l.length)
    (hp : wifi_connected probe = true) (hwall : wall.minute % 5 ≠ 0) :
    (∃ s', loopIter prepare probe now_mono wall s = some s' ∧
       s'.slide_index = (s.slide_index + 1) % l.length ∧
       s'.slide_index < l.length ∧
       s'.screen = Canvas.content (l.get ⟨s.slide_index, hidx⟩) ∧
       s'.redrawCount = s.redrawCount + 1) ∧
    ∀ k, ∃ m, k ≤ m ∧ rotTicks l.length s.slide_index m = 0 := by
  have hlen : 0 < l.length := List.length_pos.mpr hne
  constructor
  · unfold loopIter
    rw [check_conn_online_stay prepare probe now_mono s hmode hp]
    simp only [Bool.true_eq_false, if_false]
    set s1 : CState :=
      { s with online_successes := s.online_successes + 1, offline_failures := 0 } with hs1
    rw [imageRefresh_not _ _ _ (by rintro ⟨h, -⟩; exact hwall h)]
    rw [slideRefresh_not _ _ _ (by rintro ⟨h, -⟩; exact hwall h)]
    have hsl1 : s1.slides = some l := by simpa [hs1] using hsl
    rw [slideTiming_due now_mono s1 l hsl1 hne (by simpa [hs1] using hdue)
      (by simpa [hs1] using hidx)]
    exact ⟨_, rfl, rfl, Nat.mod_lt _ hlen, rfl, rfl⟩
  · intro k
    have hr : (s.slide_index + k) % l.length < l.length := Nat.mod_lt _ hlen
    refine ⟨k + (l.length - (s.slide_index + k) % l.length), by omega, ?_⟩
    obtain ⟨t, ht⟩ :
        ∃ t, k + (l.length - (s.slide_index + k) % l.length) = t + 1 :=
      ⟨k + (l.length - (s.slide_index + k) % l.length) - 1, by omega⟩
    rw [ht, rotTicks_succ_eq]
    have hdm := Nat.div_add_mod (s.slide_index + k) l.length
    have heq : s.slide_index + t + 1 =
        l.length * ((s.slide_index + k) / l.length + 1) := by
      rw [Nat.mul_add, Nat.mul_one]
      omega
    rw [heq]
    exact Nat.mul_mod_right _ _

/-- Claim C8 witness: the rotation theorem on a two-slide set at cursor 1
during an ordinary tick whose deadline has passed. -/
theorem c8_witness :
    ((servingState [10, 20] 1 1000).offline_mode = false ∧
     (servingState [10, 20] 1 1000).slides = some [10, 20] ∧
     ([10, 20] : List Slide) ≠ [] ∧
     (servingState [10, 20] 1 1000).next_slide_time ≤ 2000 ∧
     (servingState [10, 20] 1 1000).slide_index < ([10, 20] : List Slide).length ∧
     wifi_connected probeUp = true ∧
     (1 : Nat) % 5 ≠ 0) ∧
    ((∃ s', loopIter (fun _ => none) probeUp 2000 ⟨1, 0⟩
         (servingState [10, 20] 1 1000) = some s' ∧
       s'.slide_index = ((servingState [10, 20] 1 1000).slide_index + 1) %
         ([10, 20] : List Slide).length ∧
       s'.slide_index < ([10, 20] : List Slide).length ∧
       s'.screen = Canvas.content (([10, 20] : List Slide).get ⟨1, by decide⟩) ∧
       s'.redrawCount = (servingState [10, 20] 1 1000).redrawCount + 1) ∧
     ∀ k, ∃ m, k ≤ m ∧
       rotTicks ([10, 20] : List Slide).length
         (servingState [10, 20] 1 1000).slide_index m = 0) :=
  ⟨⟨by decide, by decide, by decide, by decide, by decide, by decide, by decide⟩,
    c8_rotation (fun _ => none) probeUp 2000 ⟨1, 0⟩ (servingState [10, 20] 1 1000)
      [10, 20] (by decide) (by decide) (by decide) (by decide) (by decide)
      (by decide) (by decide)⟩

/-! ## Claim C9: the Wi-Fi probe never raises -/

/-- Claim C9, confirmed: `wifi_connected` is a total boolean function of
the probe outcome, and every tooling error or exception from the probe is
mapped to `false` (not connected), never propagated. -/
theorem c9_probe_error_is_false (msg : String) :
    wifi_connected (ProbeResult.err msg) = false := rfl

/-! ## Claim C10: the display branch never reads an unbound or
out-of-range slide list -/

/-- Claim C10, confirmed: the initial state is offline with `slides`
unbound and satisfies the safety invariant, and every loop iteration from
an invariant state terminates without a `NameError`/`IndexError` crash
(result `some _`) and re-establishes the invariant: online states always
have `slides` bound, and the cursor stays in range, so the display branch
only ever indexes a bound, non-empty list. -/
theorem c10_safety :
    (∀ t0, Inv (initState t0)) ∧
    ∀ (prepare : Url → Option Slide) (probe : ProbeResult) (now_mono : Nat)
      (wall : Wall) (s : CState), Inv s →
      ∃ s', loopIter prepare probe now_mono wall s = some s' ∧ Inv s' := by
  constructor
  · intro t0
    exact ⟨by simp [initState], by simp [initState, Inv]⟩
  · intro prepare probe now_mono wall s h
    unfold loopIter
    have hinv1 : Inv (check_connectivity prepare probe now_mono s).1 :=
      inv_check prepare probe now_mono s h
    by_cases hr : (check_connectivity prepare probe now_mono s).2 = false
    · rw [if_pos hr]
      exact ⟨_, rfl, hinv1⟩
    · rw [if_neg hr]
      set s1 := (check_connectivity prepare probe now_mono s).1 with hs1
      have hmode1 : s1.offline_mode = false := by
        have : (check_connectivity prepare probe now_mono s).2 = !s1.offline_mode := rfl
        rw [this] at hr
        cases hm : s1.offline_mode
        · rfl
        · rw [hm] at hr; simp at hr
      have hinv3 : Inv (slideRefresh prepare wall (imageRefresh prepare wall s1)) :=
        inv_slideRefresh _ _ _ (inv_imageRefresh _ _ _ hinv1)
      have hmode3 :
          (slideRefresh prepare wall (imageRefresh prepare wall s1)).offline_mode = false := by
        rw [slideRefresh_mode, imageRefresh_mode, hmode1]
      exact slideTiming_inv now_mono _ (hinv3.1 hmode3) hinv3

/-- Claim C10 witness: the safety theorem applied to the initial state,
whose invariant the first component of the theorem itself provides. -/
theorem c10_witness :
    Inv (initState 0) ∧
    ∃ s', loopIter (fun _ => none) (ProbeResult.err "x") 3 ⟨0, 0⟩ (initState 0) =
        some s' ∧ Inv s' :=
  ⟨c10_safety.1 0,
    c10_safety.2 (fun _ => none) (ProbeResult.err "x") 3 ⟨0, 0⟩ (initState 0)
      (c10_safety.1 0)⟩

end Slideshow
